import Mathlib

/-!
Shallow embedding of the WebAI Ukrainian question-answering service.

The repository contains three variants of the same service:
* `app_lightweight.py` — a Flask app around the class `LightweightUkrainianQA`;
* `simple_start.py` — a stdlib HTTP server around the class `UkrainianQA`
  and the handler `UkrainianQAHandler`;
* `app.py` — a Flask app delegating answers to the ML model in
  `ukrainian_qa_model.py`.

Questions and answers are Python strings; we embed them as Lean `String`
(lists of characters).  Python `str.lower` is modelled character by
character for the ASCII and Cyrillic ranges actually used by the data
(other characters are left unchanged), Python `str.strip` by dropping
whitespace characters from both ends, and the substring test `kw in s`
by `occursIn`.
-/

namespace WebAI

/-- Characters stripped by Python `str.strip()` (the characters for which
`str.isspace` holds). -/
def pyIsSpace (c : Char) : Bool :=
  decide (c ∈ ([' ', '\t', '\n', '\x0b', '\x0c', '\r',
    '\x1c', '\x1d', '\x1e', '\x1f', '\x85', '\xa0',
    ' ', ' ', ' ', ' ', ' ', ' ', ' ',
    ' ', ' ', ' ', ' ', ' ',
    ' ', ' ', ' ', ' ', '　'] : List Char))

/-- Character-wise model of Python `str.lower()`: ASCII capitals and the
Cyrillic capitals (both the basic block and the Ukrainian letters of the
U+0400 row) are mapped to their lowercase forms; every other character is
unchanged. -/
def pyLower (c : Char) : Char :=
  if 'A' ≤ c ∧ c ≤ 'Z' then Char.ofNat (c.toNat + 32)
  else if 'А' ≤ c ∧ c ≤ 'Я' then Char.ofNat (c.toNat + 32)
  else if 'Ѐ' ≤ c ∧ c ≤ 'Џ' then Char.ofNat (c.toNat + 80)
  else if c = 'Ґ' then 'ґ'
  else c

/-- Model of `question.lower()` on the character list of a string. -/
def lowerStr (l : List Char) : List Char :=
  l.map pyLower

/-- Test `listStarts n h`: holds when `n` is an initial segment of `h`. -/
def listStarts : List Char → List Char → Bool
  | [], _ => true
  | _ :: _, [] => false
  | a :: as, b :: bs => a == b && listStarts as bs

/-- Python substring test `needle in hay` on character lists. -/
def occursIn (needle : List Char) : List Char → Bool
  | [] => needle.isEmpty
  | c :: cs => listStarts needle (c :: cs) || occursIn needle cs

/-- Python `s.strip()` with no argument: drop whitespace from both ends. -/
def pyStrip (l : List Char) : List Char :=
  (((l.dropWhile pyIsSpace).reverse.dropWhile pyIsSpace).reverse)

/-- One entry of the hardcoded knowledge base: a topic key, its keyword
list, and the canned answer (`self.knowledge_base[topic]` in the source,
which is a Python dict preserving insertion order — embedded as a list). -/
structure Entry where
  topic : String
  keywords : List String
  answer : String
deriving DecidableEq

/-- Per-topic score of `find_best_match`: the number of the entry's
keywords that occur as substrings of the lowercased question (the inner
`for keyword in data["keywords"]` loop). -/
def score (question_lower : List Char) (e : Entry) : Nat :=
  (e.keywords.filter (fun k => occursIn k.data question_lower)).length

/-- One iteration of the `for topic, data in self.knowledge_base.items()`
loop of `find_best_match`: keep the running best `(best_match, best_score)`
pair, replacing it when the current topic scores strictly higher. -/
def fbmStep (question_lower : List Char) (acc : Option String × Nat) (e : Entry) :
    Option String × Nat :=
  if acc.2 < score question_lower e then (some e.topic, score question_lower e) else acc

/-- Python `self.knowledge_base[best_match]["answer"]` (dict lookup by
topic key; in the program the key always comes from `find_best_match`, so
the lookup never fails — the `none` branch is dead and returns `""`). -/
def lookupAnswer (kb : List Entry) (t : String) : String :=
  match kb.find? (fun e => e.topic == t) with
  | some e => e.answer
  | none => ""

/-- The greeting trigger words of `get_answer` (identical in
`app_lightweight.py` and `simple_start.py`). -/
def greetingWords : List String := ["hello", "hi", "привіт", "greetings"]

/-- The thanks trigger words of `get_answer` (identical in both files). -/
def thanksWords : List String := ["thank", "дякую", "thanks"]

/-- The empty-question reply of `get_answer`. -/
def emptyQuestionResponse : String := "Please ask a question about Ukrainian topics."

/-- The greeting reply of `get_answer`. -/
def greetingResponse : String :=
  "Привіт! Hello! I\x27m your Ukrainian Q&A assistant. Ask me anything about Ukrainian culture, history, geography, or language! 🇺🇦"

/-- The thanks reply of `get_answer`. -/
def thanksResponse : String :=
  "Будь ласка! You\x27re welcome! I\x27m happy to help you learn about Ukraine! 🇺🇦"

/-- The default reply of `get_answer` for unmatched questions. -/
def defaultResponse : String :=
  "I don\x27t have specific information about that topic in my knowledge base. Try asking about Ukrainian history, culture, geography, language, food, or politics. For example: \x27What is the capital of Ukraine?\x27 or \x27Tell me about Ukrainian borscht\x27"

namespace LightweightUkrainianQA

/-- From `LightweightUkrainianQA.__init__`: the hardcoded knowledge base of
`app_lightweight.py`, in the insertion order of the Python dict. -/
def knowledge_base : List Entry := [
  ⟨"capital", ["capital", "kyiv", "kiev", "main city"],
    "The capital of Ukraine is Kyiv (also spelled Kiev). It\x27s the largest city in Ukraine and serves as the political, economic, and cultural center of the country."⟩,
  ⟨"borscht", ["borscht", "borsch", "soup", "traditional food"],
    "Borscht is a famous Ukrainian beet soup that\x27s considered a national dish. It\x27s made with beets, cabbage, potatoes, and often includes meat. The soup has a distinctive red color and is served with sour cream and fresh dill."⟩,
  ⟨"slava_ukraini", ["слава україні", "slava ukraini", "glory", "slogan"],
    "\x27Слава Україні\x27 (Slava Ukraini) means \x27Glory to Ukraine\x27 in Ukrainian. It\x27s a patriotic slogan that has become a symbol of Ukrainian national identity and resistance. The traditional response is \x27Героям слава\x27 (Heroiam slava) which means \x27Glory to the Heroes.\x27"⟩,
  ⟨"independence", ["independence", "1991", "soviet union", "freedom"],
    "Ukraine gained independence from the Soviet Union on August 24, 1991, when the Ukrainian parliament declared independence. This followed the failed coup attempt in Moscow and the collapse of the Soviet Union. Ukraine became a sovereign nation after centuries of foreign rule."⟩,
  ⟨"geography", ["geography", "borders", "mountains", "rivers", "black sea"],
    "Ukraine is the largest country entirely in Europe. It borders Russia, Belarus, Poland, Slovakia, Hungary, Romania, and Moldova. The Carpathian Mountains are in western Ukraine, the Black Sea borders the south, and the Dnieper River is the longest river. Ukraine has fertile soil known as \x27chernozem.\x27"⟩,
  ⟨"culture", ["culture", "traditional", "embroidery", "vyshyvanka", "bandura"],
    "Ukrainian culture is rich and diverse. Traditional crafts include embroidery (vyshyvanka), Easter egg decorating (pysanky), and pottery. The bandura is a traditional musical instrument. Ukrainian folk music and dance are important cultural expressions."⟩,
  ⟨"language", ["language", "ukrainian", "phrases", "words"],
    "Ukrainian is the official language of Ukraine, belonging to the East Slavic group. Common phrases include: \x27Привіт\x27 (Hello), \x27Дякую\x27 (Thank you), \x27Будь ласка\x27 (Please/You\x27re welcome), \x27До побачення\x27 (Goodbye)."⟩,
  ⟨"politics", ["politics", "president", "zelensky", "government", "democracy"],
    "Ukraine is a democratic republic with a president and parliament. The current president is Volodymyr Zelenskyy. Ukraine has been working towards EU and NATO membership and has made significant progress in democratic reforms."⟩,
  ⟨"food", ["food", "cuisine", "dishes", "vareniki", "holubtsi"],
    "Ukrainian cuisine features hearty, flavorful dishes. Popular foods include vareniki (dumplings), holubtsi (cabbage rolls), kasha (porridge), and various types of bread. Ukrainian food often uses ingredients like potatoes, cabbage, beets, and sour cream."⟩,
  ⟨"history", ["history", "historical", "past", "ancient", "medieval"],
    "Ukraine has a rich history dating back to ancient times. It was part of Kyivan Rus\x27 in the medieval period, then came under various foreign rulers including the Polish-Lithuanian Commonwealth, Russian Empire, and Soviet Union. Ukraine has a strong cultural heritage with Cossack traditions."⟩]

/-- Method `LightweightUkrainianQA.find_best_match` (the `self` parameter carries
only `self.knowledge_base`, passed as `kb`): lowercase the question, keep
the strictly-best scoring topic of the loop, and return it only when its
score is positive. -/
def find_best_match (kb : List Entry) (question : String) : Option String :=
  if 0 < (kb.foldl (fbmStep (lowerStr question.data)) (none, 0)).2 then
    (kb.foldl (fbmStep (lowerStr question.data)) (none, 0)).1
  else none

/-- Method `LightweightUkrainianQA.get_answer`: empty-after-strip check, greeting
check, thanks check, then best-match lookup with a default reply. -/
def get_answer (kb : List Entry) (question : String) : String :=
  if pyStrip question.data = [] then
    emptyQuestionResponse
  else if greetingWords.any (fun w => occursIn w.data (lowerStr question.data)) then
    greetingResponse
  else if thanksWords.any (fun w => occursIn w.data (lowerStr question.data)) then
    thanksResponse
  else
    match find_best_match kb question with
    | some best_match => lookupAnswer kb best_match
    | none => defaultResponse

end LightweightUkrainianQA

namespace UkrainianQA

/-- From `UkrainianQA.__init__` of `simple_start.py`: the hardcoded knowledge
base, in the insertion order of the Python dict. -/
def knowledge_base : List Entry := [
  ⟨"capital", ["capital", "kyiv", "kiev", "main city"],
    "The capital of Ukraine is Kyiv (also spelled Kiev). It\x27s the largest city in Ukraine and serves as the political, economic, and cultural center of the country."⟩,
  ⟨"borscht", ["borscht", "borsch", "soup", "traditional food"],
    "Borscht is a famous Ukrainian beet soup that\x27s considered a national dish. It\x27s made with beets, cabbage, potatoes, and often includes meat. The soup has a distinctive red color and is served with sour cream and fresh dill."⟩,
  ⟨"slava_ukraini", ["слава україні", "slava ukraini", "glory", "slogan"],
    "\x27Слава Україні\x27 (Slava Ukraini) means \x27Glory to Ukraine\x27 in Ukrainian. It\x27s a patriotic slogan that has become a symbol of Ukrainian national identity and resistance. The traditional response is \x27Героям слава\x27 (Heroiam slava) which means \x27Glory to the Heroes.\x27"⟩,
  ⟨"independence", ["independence", "1991", "soviet union", "freedom"],
    "Ukraine gained independence from the Soviet Union on August 24, 1991, when the Ukrainian parliament declared independence. This followed the failed coup attempt in Moscow and the collapse of the Soviet Union. Ukraine became a sovereign nation after centuries of foreign rule."⟩,
  ⟨"geography", ["geography", "borders", "mountains", "rivers", "black sea"],
    "Ukraine is the largest country entirely in Europe. It borders Russia, Belarus, Poland, Slovakia, Hungary, Romania, and Moldova. The Carpathian Mountains are in western Ukraine, the Black Sea borders the south, and the Dnieper River is the longest river. Ukraine has fertile soil known as \x27chernozem.\x27"⟩,
  ⟨"culture", ["culture", "traditional", "embroidery", "vyshyvanka", "bandura"],
    "Ukrainian culture is rich and diverse. Traditional crafts include embroidery (vyshyvanka), Easter egg decorating (pysanky), and pottery. The bandura is a traditional musical instrument. Ukrainian folk music and dance are important cultural expressions."⟩,
  ⟨"language", ["language", "ukrainian", "phrases", "words"],
    "Ukrainian is the official language of Ukraine, belonging to the East Slavic group. Common phrases include: \x27Привіт\x27 (Hello), \x27Дякую\x27 (Thank you), \x27Будь ласка\x27 (Please/You\x27re welcome), \x27До побачення\x27 (Goodbye)."⟩,
  ⟨"politics", ["politics", "president", "zelensky", "government", "democracy"],
    "Ukraine is a democratic republic with a president and parliament. The current president is Volodymyr Zelenskyy. Ukraine has been working towards EU and NATO membership and has made significant progress in democratic reforms."⟩,
  ⟨"food", ["food", "cuisine", "dishes", "vareniki", "holubtsi"],
    "Ukrainian cuisine features hearty, flavorful dishes. Popular foods include vareniki (dumplings), holubtsi (cabbage rolls), kasha (porridge), and various types of bread. Ukrainian food often uses ingredients like potatoes, cabbage, beets, and sour cream."⟩,
  ⟨"history", ["history", "historical", "past", "ancient", "medieval"],
    "Ukraine has a rich history dating back to ancient times. It was part of Kyivan Rus\x27 in the medieval period, then came under various foreign rulers including the Polish-Lithuanian Commonwealth, Russian Empire, and Soviet Union. Ukraine has a strong cultural heritage with Cossack traditions."⟩]

/-- Method `UkrainianQA.find_best_match` of `simple_start.py` (code identical to
the lightweight variant). -/
def find_best_match (kb : List Entry) (question : String) : Option String :=
  if 0 < (kb.foldl (fbmStep (lowerStr question.data)) (none, 0)).2 then
    (kb.foldl (fbmStep (lowerStr question.data)) (none, 0)).1
  else none

/-- Method `UkrainianQA.get_answer` of `simple_start.py` (code identical to the
lightweight variant). -/
def get_answer (kb : List Entry) (question : String) : String :=
  if pyStrip question.data = [] then
    emptyQuestionResponse
  else if greetingWords.any (fun w => occursIn w.data (lowerStr question.data)) then
    greetingResponse
  else if thanksWords.any (fun w => occursIn w.data (lowerStr question.data)) then
    thanksResponse
  else
    match find_best_match kb question with
    | some best_match => lookupAnswer kb best_match
    | none => defaultResponse

end UkrainianQA

/-- JSON values appearing in the response bodies of the service (strings,
booleans, numbers, and the list of topic keys). -/
inductive Json where
  | str : String → Json
  | bool : Bool → Json
  | num : Nat → Json
  | list : List String → Json
deriving DecidableEq

/-- A request to `POST /api/ask` as seen by the handler.  `body fields` is a
successfully parsed JSON object whose values are strings (the only shape
the handlers consume); `raising msg` stands for any request whose handling
raises inside the `try` block — unparseable JSON, a non-string `question`
value (`.strip()` raises `AttributeError`), a failed body read — with
`msg` the text of the exception.  The surrounding `try/except` treats all
of these uniformly. -/
inductive AskRequest where
  | raising : String → AskRequest
  | body : List (String × String) → AskRequest

/-- Python `data.get(k)` on the parsed JSON object (first binding of the
key, `none` when the key is absent). -/
def getField (fields : List (String × String)) (k : String) : Option String :=
  (fields.find? (fun p => p.1 == k)).map Prod.snd

/-- Lookup of a key in a JSON response body (used to state properties of
the response objects the handlers serialize). -/
def getJsonField (fields : List (String × Json)) (k : String) : Option Json :=
  (fields.find? (fun p => p.1 == k)).map Prod.snd

namespace AppLightweight

/-- The Flask endpoint `ask_question` of `app_lightweight.py`: strip the
`question` field (defaulting to `""` when absent), answer 400 when it is
empty, otherwise 200 with the answer of the QA system; any exception in
the `try` block yields 500.  The result is the HTTP status paired with
the `jsonify` body as an ordered key/value list. -/
def ask_question (req : AskRequest) : Nat × List (String × Json) :=
  match req with
  | AskRequest.raising _ =>
      (500, [("error", Json.str "An error occurred while processing your question"),
             ("success", Json.bool false)])
  | AskRequest.body fields =>
      let question := String.mk (pyStrip ((getField fields "question").getD "").data)
      if question = "" then
        (400, [("error", Json.str "Question is required")])
      else
        (200, [("question", Json.str question),
               ("answer", Json.str (LightweightUkrainianQA.get_answer
                  LightweightUkrainianQA.knowledge_base question)),
               ("success", Json.bool true)])

/-- The Flask endpoint `health_check` of `app_lightweight.py` (status 200
is the default of `jsonify` in Flask). -/
def health_check : Nat × List (String × Json) :=
  (200, [("status", Json.str "healthy"),
         ("model_loaded", Json.bool true),
         ("version", Json.str "lightweight")])

/-- The Flask endpoint `get_topics` of `app_lightweight.py`:
`topics = list(qa_system.knowledge_base.keys())`. -/
def get_topics : Nat × List (String × Json) :=
  let topics := LightweightUkrainianQA.knowledge_base.map Entry.topic
  (200, [("topics", Json.list topics), ("count", Json.num topics.length)])

end AppLightweight

namespace UkrainianQAModel

/-- Method `UkrainianQAModel.is_ready` of `ukrainian_qa_model.py`: returns the
`self.model_ready` flag, here passed explicitly. -/
def is_ready (model_ready : Bool) : Bool := model_ready

end UkrainianQAModel

namespace AppMain

/-- The Flask endpoint `ask_question` of `app.py`.  The method
`get_answer` of the ML model depends on external services (sentence embeddings, FAISS,
OpenAI) and is passed as the opaque function `answer`. -/
def ask_question (answer : String → String) (req : AskRequest) :
    Nat × List (String × Json) :=
  match req with
  | AskRequest.raising _ =>
      (500, [("error", Json.str "An error occurred while processing your question"),
             ("success", Json.bool false)])
  | AskRequest.body fields =>
      let question := String.mk (pyStrip ((getField fields "question").getD "").data)
      if question = "" then
        (400, [("error", Json.str "Question is required")])
      else
        (200, [("question", Json.str question),
               ("answer", Json.str (answer question)),
               ("success", Json.bool true)])

/-- The Flask endpoint `health_check` of `app.py`: reports
`qa_model.is_ready()` as `model_loaded`. -/
def health_check (model_ready : Bool) : Nat × List (String × Json) :=
  (200, [("status", Json.str "healthy"),
         ("model_loaded", Json.bool (UkrainianQAModel.is_ready model_ready))])

end AppMain

/-- Body of an HTTP response of the stdlib handler: the HTML page (whose
text no claim concerns), a JSON object, or an empty body. -/
inductive RespBody where
  | html : RespBody
  | json : List (String × Json) → RespBody
  | empty : RespBody
deriving DecidableEq

namespace UkrainianQAHandler

/-- Method `UkrainianQAHandler.do_GET` of `simple_start.py`: serve the HTML page
on `/`, `/?` and `/index.html`, the health and topics JSON on their API
paths, and a 302 redirect to `/` otherwise. -/
def do_GET (path : String) : Nat × RespBody :=
  if path = "/" ∨ path = "/?" ∨ path = "/index.html" then
    (200, RespBody.html)
  else if path = "/api/health" then
    (200, RespBody.json [("status", Json.str "healthy"),
                         ("model_loaded", Json.bool true),
                         ("version", Json.str "simple")])
  else if path = "/api/topics" then
    let topics := UkrainianQA.knowledge_base.map Entry.topic
    (200, RespBody.json [("topics", Json.list topics),
                         ("count", Json.num topics.length)])
  else
    (302, RespBody.empty)

/-- Method `UkrainianQAHandler.do_POST` of `simple_start.py`: on `/api/ask`,
both the required-field error and the success payload are sent with HTTP
status 200; only an exception in the `try` block produces a 500, whose
error text interpolates the exception message.  Any other path gets 404
with an empty body. -/
def do_POST (path : String) (req : AskRequest) : Nat × RespBody :=
  if path = "/api/ask" then
    match req with
    | AskRequest.raising msg =>
        (500, RespBody.json [("error", Json.str ("An error occurred: " ++ msg)),
                             ("success", Json.bool false)])
    | AskRequest.body fields =>
        let question := String.mk (pyStrip ((getField fields "question").getD "").data)
        if question = "" then
          (200, RespBody.json [("error", Json.str "Question is required"),
                               ("success", Json.bool false)])
        else
          (200, RespBody.json [("question", Json.str question),
                               ("answer", Json.str (UkrainianQA.get_answer
                                  UkrainianQA.knowledge_base question)),
                               ("success", Json.bool true)])
  else
    (404, RespBody.empty)

end UkrainianQAHandler

/-- The mutable state of a QA instance: Python `self` holds only the
`knowledge_base` attribute after `__init__`. -/
structure QAState where
  knowledge_base : List Entry
deriving DecidableEq

namespace LightweightUkrainianQA

/-- Method-call semantics of `find_best_match` as an explicit state
transformer: the body of the Python method only reads
`self.knowledge_base` and contains no assignment to `self`, so the
post-state is the pre-state. -/
def find_best_matchS (s : QAState) (question : String) :
    Option String × QAState :=
  (find_best_match s.knowledge_base question, s)

/-- Method-call semantics of `get_answer` as an explicit state
transformer (the method only reads `self.knowledge_base`). -/
def get_answerS (s : QAState) (question : String) : String × QAState :=
  (get_answer s.knowledge_base question, s)

/-- Endpoint `get_topics` as a state transformer over the QA state it
reads (`list(qa_system.knowledge_base.keys())`). -/
def get_topicsS (s : QAState) : (Nat × List (String × Json)) × QAState :=
  (let topics := s.knowledge_base.map Entry.topic
   (200, [("topics", Json.list topics), ("count", Json.num topics.length)]), s)

/-- Endpoint `health_check` as a state transformer (it does not touch
the QA state at all). -/
def health_checkS (s : QAState) : (Nat × List (String × Json)) × QAState :=
  ((200, [("status", Json.str "healthy"),
          ("model_loaded", Json.bool true),
          ("version", Json.str "lightweight")]), s)

end LightweightUkrainianQA

/-! ### Helper lemmas about the string primitives -/

theorem listStarts_iff (n h : List Char) :
    listStarts n h = true ↔ ∃ t, h = n ++ t := by
  induction n generalizing h with
  | nil =>
    simp [listStarts]
  | cons a as ih =>
    cases h with
    | nil =>
      simp [listStarts]
    | cons b bs =>
      simp only [listStarts, Bool.and_eq_true, beq_iff_eq, ih, List.cons_append,
        List.cons.injEq]
      constructor
      · rintro ⟨rfl, t, rfl⟩
        exact ⟨t, rfl, rfl⟩
      · rintro ⟨t, rfl, rfl⟩
        exact ⟨rfl, t, rfl⟩

theorem occursIn_iff (n h : List Char) :
    occursIn n h = true ↔ ∃ u v, h = u ++ n ++ v := by
  induction h with
  | nil =>
    simp only [occursIn, List.isEmpty_iff]
    constructor
    · rintro rfl
      exact ⟨[], [], rfl⟩
    · rintro ⟨u, v, huv⟩
      rcases List.append_eq_nil.1 huv.symm with ⟨h1, h2⟩
      exact (List.append_eq_nil.1 h1).2
  | cons c cs ih =>
    simp only [occursIn, Bool.or_eq_true, listStarts_iff, ih]
    constructor
    · rintro (⟨t, ht⟩ | ⟨u, v, rfl⟩)
      · exact ⟨[], t, by simpa using ht⟩
      · exact ⟨c :: u, v, rfl⟩
    · rintro ⟨u, v, huv⟩
      cases u with
      | nil =>
        exact Or.inl ⟨v, by simpa using huv⟩
      | cons x xs =>
        simp only [List.cons_append, List.append_assoc, List.cons.injEq] at huv
        exact Or.inr ⟨xs, v, by simp [huv.2, List.append_assoc]⟩

theorem occursIn_mem {n h : List Char} (ho : occursIn n h = true) {c : Char}
    (hc : c ∈ n) : c ∈ h := by
  rcases (occursIn_iff n h).1 ho with ⟨u, v, rfl⟩
  simp [hc]

theorem occursIn_trans {a b c : List Char} (h1 : occursIn a b = true)
    (h2 : occursIn b c = true) : occursIn a c = true := by
  rcases (occursIn_iff a b).1 h1 with ⟨u, v, rfl⟩
  rcases (occursIn_iff _ c).1 h2 with ⟨x, y, rfl⟩
  exact (occursIn_iff a _).2 ⟨x ++ u, v ++ y, by simp [List.append_assoc]⟩

theorem pyLower_of_space {c : Char} (h : pyIsSpace c = true) : pyLower c = c := by
  simp only [pyIsSpace, decide_eq_true_eq] at h
  fin_cases h <;> decide

theorem pyStrip_eq_nil_iff (l : List Char) :
    pyStrip l = [] ↔ ∀ c ∈ l, pyIsSpace c = true := by
  unfold pyStrip
  rw [List.reverse_eq_nil_iff, List.dropWhile_eq_nil_iff]
  constructor
  · intro h c hc
    have hsplit : l.takeWhile pyIsSpace ++ l.dropWhile pyIsSpace = l :=
      List.takeWhile_append_dropWhile pyIsSpace l
    rw [← hsplit] at hc
    rcases List.mem_append.1 hc with h1 | h1
    · exact List.mem_takeWhile_imp h1
    · exact h c (List.mem_reverse.2 h1)
  · intro h c hc
    exact h c ((List.dropWhile_suffix pyIsSpace).subset (List.mem_reverse.1 hc))

theorem pyStrip_ne_nil_of_occursIn {n l : List Char}
    (ho : occursIn n (lowerStr l) = true)
    (hn : n.any (fun c => !pyIsSpace c) = true) :
    pyStrip l ≠ [] := by
  intro hnil
  rw [pyStrip_eq_nil_iff] at hnil
  rcases List.any_eq_true.1 hn with ⟨c, hc, hcs⟩
  have hcl : c ∈ lowerStr l := occursIn_mem ho hc
  rcases List.mem_map.1 hcl with ⟨d, hd, rfl⟩
  have hds := hnil d hd
  rw [pyLower_of_space hds] at hcs
  simp [hds] at hcs

/-! ### Helper lemmas about the matching loop -/

theorem score_pos_of_keyword {ql : List Char} {e : Entry} {k : String}
    (hk : k ∈ e.keywords) (ho : occursIn k.data ql = true) : 0 < score ql e := by
  have hf : k ∈ e.keywords.filter (fun k2 => occursIn k2.data ql) :=
    List.mem_filter.2 ⟨hk, ho⟩
  exact List.length_pos_of_mem hf

theorem score_eq_zero {ql : List Char} {e : Entry}
    (h : ∀ k ∈ e.keywords, occursIn k.data ql = false) : score ql e = 0 := by
  unfold score
  rw [List.length_eq_zero, List.filter_eq_nil_iff]
  intro k hk
  simp [h k hk]

theorem foldl_fbm_keep (ql : List Char) (l : List Entry) :
    ∀ acc : Option String × Nat, (∀ e ∈ l, score ql e ≤ acc.2) →
      l.foldl (fbmStep ql) acc = acc := by
  induction l with
  | nil =>
    intro acc _
    rfl
  | cons e es ih =>
    intro acc h
    have h1 : ¬ acc.2 < score ql e := not_lt.2 (h e (List.mem_cons_self e es))
    simp only [List.foldl_cons, fbmStep, if_neg h1]
    exact ih acc (fun x hx => h x (List.mem_cons_of_mem e hx))

theorem foldl_fbm_inv (ql : List Char) (l : List Entry) :
    ∀ acc : Option String × Nat,
      acc.2 ≤ (l.foldl (fbmStep ql) acc).2 ∧
      (∀ e ∈ l, score ql e ≤ (l.foldl (fbmStep ql) acc).2) ∧
      (l.foldl (fbmStep ql) acc = acc ∨
        ∃ e ∈ l, l.foldl (fbmStep ql) acc = (some e.topic, score ql e)) := by
  induction l with
  | nil =>
    intro acc
    exact ⟨le_rfl, by simp, Or.inl rfl⟩
  | cons e es ih =>
    intro acc
    obtain ⟨ih1, ih2, ih3⟩ := ih (fbmStep ql acc e)
    have hc : fbmStep ql acc e = acc ∨
        fbmStep ql acc e = (some e.topic, score ql e) := by
      by_cases h : acc.2 < score ql e
      · exact Or.inr (by simp [fbmStep, h])
      · exact Or.inl (by simp [fbmStep, h])
    have h2 : acc.2 ≤ (fbmStep ql acc e).2 := by
      by_cases h : acc.2 < score ql e
      · simp only [fbmStep, if_pos h]
        exact le_of_lt h
      · simp [fbmStep, h]
    have h3 : score ql e ≤ (fbmStep ql acc e).2 := by
      by_cases h : acc.2 < score ql e
      · simp [fbmStep, h]
      · simp only [fbmStep, if_neg h]
        exact not_lt.1 h
    refine ⟨le_trans h2 ih1, ?_, ?_⟩
    · intro x hx
      rcases List.mem_cons.1 hx with rfl | hx2
      · exact le_trans h3 ih1
      · exact ih2 x hx2
    · simp only [List.foldl_cons]
      rcases ih3 with heq | ⟨x, hx, hr⟩
      · rcases hc with hc | hc
        · rw [hc] at heq
          rw [hc]
          exact Or.inl heq
        · rw [hc] at heq
          rw [hc]
          exact Or.inr ⟨e, List.mem_cons_self e es, heq⟩
      · exact Or.inr ⟨x, List.mem_cons_of_mem e hx, hr⟩

theorem foldl_fbm_topic_keep (ql : List Char) (t : String) :
    ∀ l : List Entry, (∀ e ∈ l, e.topic ≠ t → score ql e = 0) →
      ∀ acc : Option String × Nat, acc.1 = some t → 0 < acc.2 →
        (l.foldl (fbmStep ql) acc).1 = some t ∧ 0 < (l.foldl (fbmStep ql) acc).2 := by
  intro l
  induction l with
  | nil =>
    intro _ acc h1 h2
    exact ⟨h1, h2⟩
  | cons e es ih =>
    intro hz acc h1 h2
    simp only [List.foldl_cons]
    by_cases h : acc.2 < score ql e
    · have htop : e.topic = t := by
        by_contra hne
        have h0 := hz e (List.mem_cons_self e es) hne
        omega
      have hst : fbmStep ql acc e = (some e.topic, score ql e) := by
        simp [fbmStep, h]
      rw [hst]
      exact ih (fun x hx hxt => hz x (List.mem_cons_of_mem e hx) hxt)
        (some e.topic, score ql e) (by rw [htop]) (lt_of_le_of_lt (Nat.zero_le _) h)
    · have hst : fbmStep ql acc e = acc := by
        simp [fbmStep, h]
      rw [hst]
      exact ih (fun x hx hxt => hz x (List.mem_cons_of_mem e hx) hxt) acc h1 h2

theorem foldl_fbm_topic_reach (ql : List Char) (t : String) :
    ∀ l : List Entry, (∀ e ∈ l, e.topic ≠ t → score ql e = 0) →
      (∃ e ∈ l, e.topic = t ∧ 0 < score ql e) →
      (l.foldl (fbmStep ql) (none, 0)).1 = some t ∧
        0 < (l.foldl (fbmStep ql) (none, 0)).2 := by
  intro l
  induction l with
  | nil =>
    rintro _ ⟨e, he, _⟩
    cases he
  | cons e es ih =>
    rintro hz hex
    simp only [List.foldl_cons]
    by_cases h : (0 : Nat) < score ql e
    · have htop : e.topic = t := by
        by_contra hne
        have h0 := hz e (List.mem_cons_self e es) hne
        omega
      have hst : fbmStep ql (none, 0) e = (some e.topic, score ql e) := by
        simp [fbmStep, h]
      rw [hst]
      exact foldl_fbm_topic_keep ql t es
        (fun x hx hxt => hz x (List.mem_cons_of_mem e hx) hxt)
        (some e.topic, score ql e) (by rw [htop]) h
    · have hst : fbmStep ql (none, 0) e = (none, 0) := by
        simp [fbmStep, h]
      rw [hst]
      apply ih (fun x hx hxt => hz x (List.mem_cons_of_mem e hx) hxt)
      rcases hex with ⟨x, hx, hxt, hxs⟩
      rcases List.mem_cons.1 hx with rfl | hx2
      · omega
      · exact ⟨x, hx2, hxt, hxs⟩

/-! ### Helper lemmas about the QA functions -/

theorem ua_get_answer_eq (kb : List Entry) (q : String) :
    UkrainianQA.get_answer kb q = LightweightUkrainianQA.get_answer kb q := rfl

theorem ua_find_best_match_eq (kb : List Entry) (q : String) :
    UkrainianQA.find_best_match kb q = LightweightUkrainianQA.find_best_match kb q := rfl

theorem ua_kb_eq :
    UkrainianQA.knowledge_base = LightweightUkrainianQA.knowledge_base := rfl

theorem find_best_match_some {kb : List Entry} {q : String} {e : Entry}
    (he : e ∈ kb) (hpos : 0 < score (lowerStr q.data) e)
    (hz : ∀ x ∈ kb, x.topic ≠ e.topic → score (lowerStr q.data) x = 0) :
    LightweightUkrainianQA.find_best_match kb q = some e.topic := by
  obtain ⟨h1, h2⟩ := foldl_fbm_topic_reach (lowerStr q.data) e.topic kb hz ⟨e, he, rfl, hpos⟩
  unfold LightweightUkrainianQA.find_best_match
  rw [if_pos h2, h1]

theorem find_best_match_none {kb : List Entry} {q : String}
    (h : ∀ e ∈ kb, score (lowerStr q.data) e = 0) :
    LightweightUkrainianQA.find_best_match kb q = none := by
  have hk : kb.foldl (fbmStep (lowerStr q.data)) (none, 0) = (none, 0) :=
    foldl_fbm_keep (lowerStr q.data) kb (none, 0) (fun e he => by rw [h e he])
  unfold LightweightUkrainianQA.find_best_match
  rw [hk]
  simp

theorem find_best_match_spec (kb : List Entry) (q : String) :
    (∀ t, LightweightUkrainianQA.find_best_match kb q = some t →
      ∃ e ∈ kb, e.topic = t ∧
        ∀ x ∈ kb, score (lowerStr q.data) x ≤ score (lowerStr q.data) e) ∧
    (LightweightUkrainianQA.find_best_match kb q = none ↔
      ∀ e ∈ kb, score (lowerStr q.data) e = 0) := by
  obtain ⟨h1, h2, h3⟩ := foldl_fbm_inv (lowerStr q.data) kb (none, 0)
  constructor
  · intro t hsome
    unfold LightweightUkrainianQA.find_best_match at hsome
    by_cases hr : 0 < (kb.foldl (fbmStep (lowerStr q.data)) (none, 0)).2
    · rw [if_pos hr] at hsome
      rcases h3 with heq | ⟨e, he, hre⟩
      · rw [heq] at hr
        simp at hr
      · rw [hre] at hsome
        refine ⟨e, he, Option.some.inj hsome, ?_⟩
        intro x hx
        have hle := h2 x hx
        rw [hre] at hle
        simpa using hle
    · rw [if_neg hr] at hsome
      cases hsome
  · constructor
    · intro hnone
      unfold LightweightUkrainianQA.find_best_match at hnone
      by_cases hr : 0 < (kb.foldl (fbmStep (lowerStr q.data)) (none, 0)).2
      · rw [if_pos hr] at hnone
        rcases h3 with heq | ⟨e, he, hre⟩
        · rw [heq] at hr
          simp at hr
        · rw [hre] at hnone
          cases hnone
      · intro e he
        have hle := h2 e he
        omega
    · intro hz
      exact find_best_match_none hz

theorem get_answer_no_special {kb : List Entry} {q : String}
    (hstrip : pyStrip q.data ≠ [])
    (hg : ∀ w ∈ greetingWords, occursIn w.data (lowerStr q.data) = false)
    (ht : ∀ w ∈ thanksWords, occursIn w.data (lowerStr q.data) = false) :
    LightweightUkrainianQA.get_answer kb q =
      match LightweightUkrainianQA.find_best_match kb q with
      | some t => lookupAnswer kb t
      | none => defaultResponse := by
  have hga : greetingWords.any (fun w => occursIn w.data (lowerStr q.data)) = false := by
    rw [List.any_eq_false]
    intro w hw
    simp [hg w hw]
  have hta : thanksWords.any (fun w => occursIn w.data (lowerStr q.data)) = false := by
    rw [List.any_eq_false]
    intro w hw
    simp [ht w hw]
  unfold LightweightUkrainianQA.get_answer
  rw [if_neg hstrip, hga, hta]
  simp

set_option maxRecDepth 8000

theorem kb_keywords_nonspace :
    ∀ e ∈ LightweightUkrainianQA.knowledge_base, ∀ k ∈ e.keywords,
      k.data.any (fun c => !pyIsSpace c) = true := by decide

theorem kb_lookup_answer :
    ∀ e ∈ LightweightUkrainianQA.knowledge_base,
      lookupAnswer LightweightUkrainianQA.knowledge_base e.topic = e.answer := by decide

theorem greeting_words_nonspace :
    ∀ w ∈ greetingWords, w.data.any (fun c => !pyIsSpace c) = true := by decide

theorem ask_question_body_lw (fields : List (String × String)) :
    AppLightweight.ask_question (AskRequest.body fields) =
      if String.mk (pyStrip ((getField fields "question").getD "").data) = "" then
        (400, [("error", Json.str "Question is required")])
      else
        (200, [("question",
                 Json.str (String.mk (pyStrip ((getField fields "question").getD "").data))),
               ("answer", Json.str (LightweightUkrainianQA.get_answer
                 LightweightUkrainianQA.knowledge_base
                 (String.mk (pyStrip ((getField fields "question").getD "").data)))),
               ("success", Json.bool true)]) := rfl

theorem ask_question_body_ml (answer : String → String) (fields : List (String × String)) :
    AppMain.ask_question answer (AskRequest.body fields) =
      if String.mk (pyStrip ((getField fields "question").getD "").data) = "" then
        (400, [("error", Json.str "Question is required")])
      else
        (200, [("question",
                 Json.str (String.mk (pyStrip ((getField fields "question").getD "").data))),
               ("answer", Json.str (answer
                 (String.mk (pyStrip ((getField fields "question").getD "").data)))),
               ("success", Json.bool true)]) := rfl

theorem do_POST_ask_body (fields : List (String × String)) :
    UkrainianQAHandler.do_POST "/api/ask" (AskRequest.body fields) =
      if String.mk (pyStrip ((getField fields "question").getD "").data) = "" then
        (200, RespBody.json [("error", Json.str "Question is required"),
          ("success", Json.bool false)])
      else
        (200, RespBody.json [("question",
                 Json.str (String.mk (pyStrip ((getField fields "question").getD "").data))),
               ("answer", Json.str (UkrainianQA.get_answer UkrainianQA.knowledge_base
                 (String.mk (pyStrip ((getField fields "question").getD "").data)))),
               ("success", Json.bool true)]) := rfl

theorem stripped_str_ne_empty {s : String} (h : pyStrip s.data ≠ []) :
    String.mk (pyStrip s.data) ≠ "" :=
  fun hc => h (congrArg String.data hc)

/-! ### The claims -/

/-- Claim C1, counterexample: "history" is a topic key of the knowledge
base and the string "history" is one of its keywords, the question
"history" contains that keyword, yet `get_answer` (in both variants)
returns the greeting response — the substring "hi" of "history" triggers
the greeting branch first — and not the canned answer stored for the
topic. -/
theorem claim_C1_counterexample :
    (LightweightUkrainianQA.knowledge_base.map Entry.topic).contains "history" = true ∧
    LightweightUkrainianQA.knowledge_base.all
      (fun e => !(e.topic == "history") || e.keywords.contains "history") = true ∧
    occursIn ("history" : String).data (lowerStr ("history" : String).data) = true ∧
    LightweightUkrainianQA.get_answer LightweightUkrainianQA.knowledge_base "history" =
      greetingResponse ∧
    LightweightUkrainianQA.get_answer LightweightUkrainianQA.knowledge_base "history" ≠
      lookupAnswer LightweightUkrainianQA.knowledge_base "history" ∧
    UkrainianQA.get_answer UkrainianQA.knowledge_base "history" ≠
      lookupAnswer UkrainianQA.knowledge_base "history" := by
  exact ⟨by decide, by decide, by decide, by decide, by decide, by decide⟩

/-- Claim C1 (amended): for every topic of the knowledge base and every
keyword listed for that topic, `get_answer` on a question containing that
keyword returns the canned answer stored for that topic, provided the
lowercased question contains no greeting word, no thanks word, and no
keyword of any other topic (in both variants). -/
theorem claim_C1_amended_keyword_answer :
    ∀ e ∈ LightweightUkrainianQA.knowledge_base, ∀ k ∈ e.keywords, ∀ q : String,
      occursIn k.data (lowerStr q.data) = true →
      (∀ w ∈ greetingWords, occursIn w.data (lowerStr q.data) = false) →
      (∀ w ∈ thanksWords, occursIn w.data (lowerStr q.data) = false) →
      (∀ x ∈ LightweightUkrainianQA.knowledge_base, x.topic ≠ e.topic →
        ∀ k2 ∈ x.keywords, occursIn k2.data (lowerStr q.data) = false) →
      LightweightUkrainianQA.get_answer LightweightUkrainianQA.knowledge_base q =
        e.answer ∧
      UkrainianQA.get_answer UkrainianQA.knowledge_base q = e.answer := by
  intro e he k hk q hko hg ht hz
  have hstrip : pyStrip q.data ≠ [] :=
    pyStrip_ne_nil_of_occursIn hko (kb_keywords_nonspace e he k hk)
  have hfbm : LightweightUkrainianQA.find_best_match
      LightweightUkrainianQA.knowledge_base q = some e.topic :=
    find_best_match_some he (score_pos_of_keyword hk hko)
      (fun x hx hxt => score_eq_zero (hz x hx hxt))
  have hlw : LightweightUkrainianQA.get_answer LightweightUkrainianQA.knowledge_base q =
      e.answer := by
    rw [get_answer_no_special hstrip hg ht, hfbm]
    exact kb_lookup_answer e he
  refine ⟨hlw, ?_⟩
  rw [ua_get_answer_eq, ua_kb_eq]
  exact hlw

/-- Claim C1, witness: the concrete question "What is the capital of
Ukraine?" contains the keyword "capital" and nothing else, and receives
the canned answer of the topic "capital" in both variants. -/
theorem claim_C1_witness :
    LightweightUkrainianQA.get_answer LightweightUkrainianQA.knowledge_base
        "What is the capital of Ukraine?" =
      lookupAnswer LightweightUkrainianQA.knowledge_base "capital" ∧
    UkrainianQA.get_answer UkrainianQA.knowledge_base
        "What is the capital of Ukraine?" =
      lookupAnswer UkrainianQA.knowledge_base "capital" := by
  have h := claim_C1_amended_keyword_answer
    (LightweightUkrainianQA.knowledge_base.get ⟨0, by decide⟩) (by decide)
    "capital" (by decide)
    "What is the capital of Ukraine?" (by decide) (by decide) (by decide) (by decide)
  refine ⟨?_, ?_⟩
  · rw [h.1]
    decide
  · rw [h.2]
    decide

/-- Claim C5, counterexample: the one-space question " " is a non-empty
string that matches no topic keyword, no greeting word and no thanks word,
yet `get_answer` returns the empty-question reply ("Please ask a
question..."), not the default fallback message, in both variants. -/
theorem claim_C5_counterexample :
    (" " : String) ≠ "" ∧
    LightweightUkrainianQA.knowledge_base.all
      (fun e => e.keywords.all
        (fun k => !occursIn k.data (lowerStr (" " : String).data))) = true ∧
    greetingWords.all (fun w => !occursIn w.data (lowerStr (" " : String).data)) = true ∧
    thanksWords.all (fun w => !occursIn w.data (lowerStr (" " : String).data)) = true ∧
    LightweightUkrainianQA.get_answer LightweightUkrainianQA.knowledge_base " " =
      emptyQuestionResponse ∧
    LightweightUkrainianQA.get_answer LightweightUkrainianQA.knowledge_base " " ≠
      defaultResponse ∧
    UkrainianQA.get_answer UkrainianQA.knowledge_base " " ≠ defaultResponse := by
  exact ⟨by decide, by decide, by decide, by decide, by decide, by decide, by decide⟩

/-- Claim C5 (amended): for every question that is non-empty after
stripping whitespace and that matches no topic keyword, no greeting word,
and no thanks word, `get_answer` returns the fixed default fallback
message (in both variants). -/
theorem claim_C5_amended_fallback :
    ∀ q : String, pyStrip q.data ≠ [] →
      (∀ e ∈ LightweightUkrainianQA.knowledge_base, ∀ k ∈ e.keywords,
        occursIn k.data (lowerStr q.data) = false) →
      (∀ w ∈ greetingWords, occursIn w.data (lowerStr q.data) = false) →
      (∀ w ∈ thanksWords, occursIn w.data (lowerStr q.data) = false) →
      LightweightUkrainianQA.get_answer LightweightUkrainianQA.knowledge_base q =
        defaultResponse ∧
      UkrainianQA.get_answer UkrainianQA.knowledge_base q = defaultResponse := by
  intro q hstrip hk hg ht
  have hfbm : LightweightUkrainianQA.find_best_match
      LightweightUkrainianQA.knowledge_base q = none :=
    find_best_match_none (fun e he => score_eq_zero (hk e he))
  have hlw : LightweightUkrainianQA.get_answer LightweightUkrainianQA.knowledge_base q =
      defaultResponse := by
    rw [get_answer_no_special hstrip hg ht, hfbm]
  refine ⟨hlw, ?_⟩
  rw [ua_get_answer_eq, ua_kb_eq]
  exact hlw

/-- Claim C5, witness: the concrete question "zzz" matches nothing and
receives the default fallback message in both variants. -/
theorem claim_C5_witness :
    LightweightUkrainianQA.get_answer LightweightUkrainianQA.knowledge_base "zzz" =
      defaultResponse ∧
    UkrainianQA.get_answer UkrainianQA.knowledge_base "zzz" = defaultResponse :=
  claim_C5_amended_fallback "zzz" (by decide) (by decide) (by decide) (by decide)

/-- Claim C3, counterexample: in the stdlib simple variant, a POST to
`/api/ask` whose JSON body has no `question` field is answered with HTTP
status 200 (carrying the required-field error JSON), not with status 400
as the claim states for every variant. -/
theorem claim_C3_counterexample :
    (UkrainianQAHandler.do_POST "/api/ask" (AskRequest.body [])).1 = 200 ∧
    (UkrainianQAHandler.do_POST "/api/ask" (AskRequest.body [])).2 =
      RespBody.json [("error", Json.str "Question is required"),
        ("success", Json.bool false)] ∧
    (UkrainianQAHandler.do_POST "/api/ask" (AskRequest.body [])).1 ≠ 400 := by
  exact ⟨rfl, rfl, by decide⟩

/-- Claim C3 (amended): in the two Flask variants a missing `question`
field or a question that is empty after stripping yields HTTP 400 with the
required-field error; in the stdlib simple variant the same inputs yield
the required-field error body (with `success = false`) but HTTP status
200; and in every variant an exception raised while handling the request
is converted to an HTTP 500 response with an error message. -/
theorem claim_C3_amended_error_handling :
    (∀ fields, getField fields "question" = none →
      AppLightweight.ask_question (AskRequest.body fields) =
        (400, [("error", Json.str "Question is required")])) ∧
    (∀ fields s, getField fields "question" = some s → pyStrip s.data = [] →
      AppLightweight.ask_question (AskRequest.body fields) =
        (400, [("error", Json.str "Question is required")])) ∧
    (∀ msg, AppLightweight.ask_question (AskRequest.raising msg) =
      (500, [("error", Json.str "An error occurred while processing your question"),
             ("success", Json.bool false)])) ∧
    (∀ (answer : String → String) fields, getField fields "question" = none →
      AppMain.ask_question answer (AskRequest.body fields) =
        (400, [("error", Json.str "Question is required")])) ∧
    (∀ (answer : String → String) fields s, getField fields "question" = some s →
      pyStrip s.data = [] →
      AppMain.ask_question answer (AskRequest.body fields) =
        (400, [("error", Json.str "Question is required")])) ∧
    (∀ (answer : String → String) msg, AppMain.ask_question answer (AskRequest.raising msg) =
      (500, [("error", Json.str "An error occurred while processing your question"),
             ("success", Json.bool false)])) ∧
    (∀ fields, getField fields "question" = none →
      UkrainianQAHandler.do_POST "/api/ask" (AskRequest.body fields) =
        (200, RespBody.json [("error", Json.str "Question is required"),
          ("success", Json.bool false)])) ∧
    (∀ fields s, getField fields "question" = some s → pyStrip s.data = [] →
      UkrainianQAHandler.do_POST "/api/ask" (AskRequest.body fields) =
        (200, RespBody.json [("error", Json.str "Question is required"),
          ("success", Json.bool false)])) ∧
    (∀ msg, UkrainianQAHandler.do_POST "/api/ask" (AskRequest.raising msg) =
      (500, RespBody.json [("error", Json.str ("An error occurred: " ++ msg)),
        ("success", Json.bool false)])) := by
  refine ⟨?_, ?_, fun msg => rfl, ?_, ?_, fun answer msg => rfl, ?_, ?_, fun msg => rfl⟩
  · intro fields h
    rw [ask_question_body_lw, h]
    rfl
  · intro fields s h1 h2
    rw [ask_question_body_lw, h1, Option.getD_some, h2]
    rfl
  · intro answer fields h
    rw [ask_question_body_ml, h]
    rfl
  · intro answer fields s h1 h2
    rw [ask_question_body_ml, h1, Option.getD_some, h2]
    rfl
  · intro fields h
    rw [do_POST_ask_body, h]
    rfl
  · intro fields s h1 h2
    rw [do_POST_ask_body, h1, Option.getD_some, h2]
    rfl

/-- Claim C3, witness: concrete instances — a body with no `question`
field and a body whose question is one space, for all three variants, and
a raising request for each. -/
theorem claim_C3_witness :
    AppLightweight.ask_question (AskRequest.body []) =
      (400, [("error", Json.str "Question is required")]) ∧
    AppLightweight.ask_question (AskRequest.body [("question", " ")]) =
      (400, [("error", Json.str "Question is required")]) ∧
    AppLightweight.ask_question (AskRequest.raising "boom") =
      (500, [("error", Json.str "An error occurred while processing your question"),
             ("success", Json.bool false)]) ∧
    AppMain.ask_question (fun _ => "ok") (AskRequest.body []) =
      (400, [("error", Json.str "Question is required")]) ∧
    AppMain.ask_question (fun _ => "ok") (AskRequest.body [("question", " ")]) =
      (400, [("error", Json.str "Question is required")]) ∧
    AppMain.ask_question (fun _ => "ok") (AskRequest.raising "boom") =
      (500, [("error", Json.str "An error occurred while processing your question"),
             ("success", Json.bool false)]) ∧
    UkrainianQAHandler.do_POST "/api/ask" (AskRequest.body []) =
      (200, RespBody.json [("error", Json.str "Question is required"),
        ("success", Json.bool false)]) ∧
    UkrainianQAHandler.do_POST "/api/ask" (AskRequest.body [("question", " ")]) =
      (200, RespBody.json [("error", Json.str "Question is required"),
        ("success", Json.bool false)]) ∧
    UkrainianQAHandler.do_POST "/api/ask" (AskRequest.raising "boom") =
      (500, RespBody.json [("error", Json.str ("An error occurred: " ++ "boom")),
        ("success", Json.bool false)]) := by
  obtain ⟨h1, h2, h3, h4, h5, h6, h7, h8, h9⟩ := claim_C3_amended_error_handling
  exact ⟨h1 [] rfl, h2 [("question", " ")] " " rfl (by decide), h3 "boom",
    h4 (fun _ => "ok") [] rfl, h5 (fun _ => "ok") [("question", " ")] " " rfl (by decide),
    h6 (fun _ => "ok") "boom",
    h7 [] rfl, h8 [("question", " ")] " " rfl (by decide), h9 "boom"⟩

/-- Claim C4, counterexample: in the Flask lightweight variant, the 400
error response for a missing question has the body
`[("error", "Question is required")]` — it contains the `error` key but no
`success` key at all, contradicting the claim that every error response
from `/api/ask` carries `success = false`. -/
theorem claim_C4_counterexample :
    (AppLightweight.ask_question (AskRequest.body [])).1 = 400 ∧
    getJsonField (AppLightweight.ask_question (AskRequest.body [])).2 "error" =
      some (Json.str "Question is required") ∧
    getJsonField (AppLightweight.ask_question (AskRequest.body [])).2 "success" =
      none := by
  exact ⟨rfl, rfl, rfl⟩

/-- Claim C4 (amended): a successful `/api/ask` response body contains
exactly the keys `question`, `answer`, `success` (with `success = true`)
in every variant; the 500 bodies of the Flask variants and every error
body of the stdlib simple variant contain `error` together with
`success = false`; but the 400 required-field body of the Flask variants
contains only the key `error` and no `success` key. -/
theorem claim_C4_amended_response_shape :
    (∀ fields s, getField fields "question" = some s → pyStrip s.data ≠ [] →
      AppLightweight.ask_question (AskRequest.body fields) =
        (200, [("question", Json.str (String.mk (pyStrip s.data))),
               ("answer", Json.str (LightweightUkrainianQA.get_answer
                 LightweightUkrainianQA.knowledge_base (String.mk (pyStrip s.data)))),
               ("success", Json.bool true)])) ∧
    (∀ (answer : String → String) fields s, getField fields "question" = some s →
      pyStrip s.data ≠ [] →
      AppMain.ask_question answer (AskRequest.body fields) =
        (200, [("question", Json.str (String.mk (pyStrip s.data))),
               ("answer", Json.str (answer (String.mk (pyStrip s.data)))),
               ("success", Json.bool true)])) ∧
    (∀ fields s, getField fields "question" = some s → pyStrip s.data ≠ [] →
      UkrainianQAHandler.do_POST "/api/ask" (AskRequest.body fields) =
        (200, RespBody.json [("question", Json.str (String.mk (pyStrip s.data))),
               ("answer", Json.str (UkrainianQA.get_answer UkrainianQA.knowledge_base
                 (String.mk (pyStrip s.data)))),
               ("success", Json.bool true)])) ∧
    (∀ fields, getField fields "question" = none →
      ((AppLightweight.ask_question (AskRequest.body fields)).2.map Prod.fst = ["error"] ∧
        getJsonField (AppLightweight.ask_question (AskRequest.body fields)).2 "success" =
          none)) ∧
    (∀ msg, getJsonField (AppLightweight.ask_question (AskRequest.raising msg)).2 "error" =
        some (Json.str "An error occurred while processing your question") ∧
      getJsonField (AppLightweight.ask_question (AskRequest.raising msg)).2 "success" =
        some (Json.bool false)) ∧
    (∀ (answer : String → String) fields, getField fields "question" = none →
      ((AppMain.ask_question answer (AskRequest.body fields)).2.map Prod.fst = ["error"] ∧
        getJsonField (AppMain.ask_question answer (AskRequest.body fields)).2 "success" =
          none)) ∧
    (∀ (answer : String → String) msg,
      getJsonField (AppMain.ask_question answer (AskRequest.raising msg)).2 "error" =
        some (Json.str "An error occurred while processing your question") ∧
      getJsonField (AppMain.ask_question answer (AskRequest.raising msg)).2 "success" =
        some (Json.bool false)) ∧
    (∀ fields, getField fields "question" = none →
      ((UkrainianQAHandler.do_POST "/api/ask" (AskRequest.body fields)).2 =
        RespBody.json [("error", Json.str "Question is required"),
          ("success", Json.bool false)])) ∧
    (∀ msg, (UkrainianQAHandler.do_POST "/api/ask" (AskRequest.raising msg)).2 =
      RespBody.json [("error", Json.str ("An error occurred: " ++ msg)),
        ("success", Json.bool false)]) := by
  refine ⟨?_, ?_, ?_, ?_, fun msg => ⟨rfl, rfl⟩, ?_, fun answer msg => ⟨rfl, rfl⟩, ?_,
    fun msg => rfl⟩
  · intro fields s h1 h2
    rw [ask_question_body_lw, h1, Option.getD_some,
      if_neg (stripped_str_ne_empty h2)]
  · intro answer fields s h1 h2
    rw [ask_question_body_ml, h1, Option.getD_some,
      if_neg (stripped_str_ne_empty h2)]
  · intro fields s h1 h2
    rw [do_POST_ask_body, h1, Option.getD_some,
      if_neg (stripped_str_ne_empty h2)]
  · intro fields h
    rw [ask_question_body_lw, h]
    exact ⟨rfl, rfl⟩
  · intro answer fields h
    rw [ask_question_body_ml, h]
    exact ⟨rfl, rfl⟩
  · intro fields h
    rw [do_POST_ask_body, h]
    rfl

/-- Claim C4, witness: concrete instances — the question "soup" produces
a success body with exactly the keys question, answer, success in all
three variants; the missing-question 400 body of both Flask variants has
only the error key; the raising cases carry success = false. -/
theorem claim_C4_witness :
    AppLightweight.ask_question (AskRequest.body [("question", "soup")]) =
      (200, [("question", Json.str "soup"),
             ("answer", Json.str (LightweightUkrainianQA.get_answer
               LightweightUkrainianQA.knowledge_base "soup")),
             ("success", Json.bool true)]) ∧
    AppMain.ask_question (fun _ => "ok") (AskRequest.body [("question", "soup")]) =
      (200, [("question", Json.str "soup"),
             ("answer", Json.str "ok"),
             ("success", Json.bool true)]) ∧
    UkrainianQAHandler.do_POST "/api/ask" (AskRequest.body [("question", "soup")]) =
      (200, RespBody.json [("question", Json.str "soup"),
             ("answer", Json.str (UkrainianQA.get_answer UkrainianQA.knowledge_base "soup")),
             ("success", Json.bool true)]) ∧
    (AppLightweight.ask_question (AskRequest.body [])).2.map Prod.fst = ["error"] ∧
    getJsonField (AppLightweight.ask_question (AskRequest.body [])).2 "success" = none ∧
    getJsonField (AppLightweight.ask_question (AskRequest.raising "boom")).2 "success" =
      some (Json.bool false) ∧
    (AppMain.ask_question (fun _ => "ok") (AskRequest.body [])).2.map Prod.fst =
      ["error"] ∧
    getJsonField (AppMain.ask_question (fun _ => "ok") (AskRequest.body [])).2
      "success" = none ∧
    getJsonField (AppMain.ask_question (fun _ => "ok") (AskRequest.raising "boom")).2
      "success" = some (Json.bool false) ∧
    (UkrainianQAHandler.do_POST "/api/ask" (AskRequest.raising "boom")).2 =
      RespBody.json [("error", Json.str ("An error occurred: " ++ "boom")),
        ("success", Json.bool false)] := by
  obtain ⟨h1, h2, h3, h4, h5, h6, h7, h8, h9⟩ := claim_C4_amended_response_shape
  have w1 := h1 [("question", "soup")] "soup" rfl (by decide)
  have w2 := h2 (fun _ => "ok") [("question", "soup")] "soup" rfl (by decide)
  have w3 := h3 [("question", "soup")] "soup" rfl (by decide)
  have w4 := h4 [] rfl
  have w5 := (h5 "boom").2
  have w6 := h6 (fun _ => "ok") [] rfl
  have w7 := (h7 (fun _ => "ok") "boom").2
  have w9 := h9 "boom"
  exact ⟨by rw [w1]; rfl, by rw [w2]; rfl, by rw [w3]; rfl, w4.1, w4.2, w5,
    w6.1, w6.2, w7, w9⟩

/-- Claim C2: for every question string, `find_best_match` returns a topic
whose keyword-overlap score (the number of keywords of that topic occurring
as substrings of the lowercased question) is maximal over all topics of the
knowledge base, and it returns `none` exactly when the score of every topic is
zero — in the lightweight variant and in the stdlib variant. -/
theorem claim_C2_find_best_match_maximal (q : String) :
    (∀ t, LightweightUkrainianQA.find_best_match LightweightUkrainianQA.knowledge_base q =
        some t →
      ∃ e ∈ LightweightUkrainianQA.knowledge_base, e.topic = t ∧
        ∀ x ∈ LightweightUkrainianQA.knowledge_base,
          score (lowerStr q.data) x ≤ score (lowerStr q.data) e) ∧
    (LightweightUkrainianQA.find_best_match LightweightUkrainianQA.knowledge_base q = none ↔
      ∀ e ∈ LightweightUkrainianQA.knowledge_base, score (lowerStr q.data) e = 0) ∧
    (∀ t, UkrainianQA.find_best_match UkrainianQA.knowledge_base q = some t →
      ∃ e ∈ UkrainianQA.knowledge_base, e.topic = t ∧
        ∀ x ∈ UkrainianQA.knowledge_base,
          score (lowerStr q.data) x ≤ score (lowerStr q.data) e) ∧
    (UkrainianQA.find_best_match UkrainianQA.knowledge_base q = none ↔
      ∀ e ∈ UkrainianQA.knowledge_base, score (lowerStr q.data) e = 0) := by
  obtain ⟨h1, h2⟩ := find_best_match_spec LightweightUkrainianQA.knowledge_base q
  refine ⟨h1, h2, ?_, ?_⟩
  · rw [ua_find_best_match_eq, ua_kb_eq]
    exact h1
  · rw [ua_find_best_match_eq, ua_kb_eq]
    exact h2

/-- Claim C2, witness: on the concrete question `"capital"` the match is
the topic `"capital"` and its score is maximal. -/
theorem claim_C2_witness :
    ∃ e ∈ LightweightUkrainianQA.knowledge_base, e.topic = "capital" ∧
      ∀ x ∈ LightweightUkrainianQA.knowledge_base,
        score (lowerStr ("capital" : String).data) x ≤
          score (lowerStr ("capital" : String).data) e :=
  (claim_C2_find_best_match_maximal "capital").1 "capital" (by decide)

/-- Claim C6: greeting detection takes precedence over topic matching: any
question whose lowercased form contains one of the greeting substrings
receives the greeting response, in both variants, regardless of the topic
keywords it contains; in particular a question containing "history"
contains "hi". -/
theorem claim_C6_greeting_precedence :
    (∀ (q w : String), w ∈ greetingWords →
      occursIn w.data (lowerStr q.data) = true →
      LightweightUkrainianQA.get_answer LightweightUkrainianQA.knowledge_base q =
        greetingResponse ∧
      UkrainianQA.get_answer UkrainianQA.knowledge_base q = greetingResponse) ∧
    (∀ q : String, occursIn ("history" : String).data (lowerStr q.data) = true →
      occursIn ("hi" : String).data (lowerStr q.data) = true) := by
  constructor
  · intro q w hw ho
    have hstrip : pyStrip q.data ≠ [] :=
      pyStrip_ne_nil_of_occursIn ho (greeting_words_nonspace w hw)
    have hany : greetingWords.any (fun w2 => occursIn w2.data (lowerStr q.data)) = true :=
      List.any_eq_true.2 ⟨w, hw, ho⟩
    have hlw : LightweightUkrainianQA.get_answer LightweightUkrainianQA.knowledge_base q =
        greetingResponse := by
      unfold LightweightUkrainianQA.get_answer
      rw [if_neg hstrip, hany]
      simp
    refine ⟨hlw, ?_⟩
    rw [ua_get_answer_eq, ua_kb_eq]
    exact hlw
  · intro q h
    exact occursIn_trans (by decide) h

/-- Claim C6, witness: the concrete question `"Hi there"` receives the
greeting response in both variants, and the lowercased form of
`"History questions"` contains `"hi"`. -/
theorem claim_C6_witness :
    LightweightUkrainianQA.get_answer LightweightUkrainianQA.knowledge_base "Hi there" =
      greetingResponse ∧
    UkrainianQA.get_answer UkrainianQA.knowledge_base "Hi there" = greetingResponse ∧
    occursIn ("hi" : String).data (lowerStr ("History questions" : String).data) = true := by
  refine ⟨(claim_C6_greeting_precedence.1 "Hi there" "hi" (by decide) (by decide)).1,
    (claim_C6_greeting_precedence.1 "Hi there" "hi" (by decide) (by decide)).2,
    claim_C6_greeting_precedence.2 "History questions" (by decide)⟩

/-- Claim C7: the health endpoints report ready status: the lightweight and
simple variants answer 200 with `status = "healthy"` and
`model_loaded = true` unconditionally, and the ML variant reports
`model_loaded` equal to the ready flag of the model (`is_ready`), hence `true`
once initialization has set the flag. -/
theorem claim_C7_health_ready :
    AppLightweight.health_check.1 = 200 ∧
    getJsonField AppLightweight.health_check.2 "status" = some (Json.str "healthy") ∧
    getJsonField AppLightweight.health_check.2 "model_loaded" = some (Json.bool true) ∧
    (UkrainianQAHandler.do_GET "/api/health").1 = 200 ∧
    (UkrainianQAHandler.do_GET "/api/health").2 =
      RespBody.json [("status", Json.str "healthy"), ("model_loaded", Json.bool true),
        ("version", Json.str "simple")] ∧
    (∀ ready : Bool, (AppMain.health_check ready).1 = 200 ∧
      getJsonField (AppMain.health_check ready).2 "model_loaded" =
        some (Json.bool (UkrainianQAModel.is_ready ready))) :=
  ⟨rfl, rfl, rfl, rfl, rfl, fun _ => ⟨rfl, rfl⟩⟩

/-- Claim C8: the topics endpoints return the list of all topic keys of the
knowledge base, and the reported count is the length of that list (which
equals the number of knowledge-base entries). -/
theorem claim_C8_topics :
    AppLightweight.get_topics.1 = 200 ∧
    getJsonField AppLightweight.get_topics.2 "topics" =
      some (Json.list (LightweightUkrainianQA.knowledge_base.map Entry.topic)) ∧
    getJsonField AppLightweight.get_topics.2 "count" =
      some (Json.num (LightweightUkrainianQA.knowledge_base.map Entry.topic).length) ∧
    (UkrainianQAHandler.do_GET "/api/topics").1 = 200 ∧
    (UkrainianQAHandler.do_GET "/api/topics").2 =
      RespBody.json [("topics", Json.list (UkrainianQA.knowledge_base.map Entry.topic)),
        ("count", Json.num (UkrainianQA.knowledge_base.map Entry.topic).length)] ∧
    (LightweightUkrainianQA.knowledge_base.map Entry.topic).length =
      LightweightUkrainianQA.knowledge_base.length :=
  ⟨rfl, rfl, rfl, rfl, rfl, by simp⟩

/-- Claim C9: the knowledge base is never mutated: every operation, run as
an explicit state transformer over the QA state, returns the state it was
given, and the topic keys of both hardcoded knowledge bases are unique. -/
theorem claim_C9_kb_immutable :
    (∀ (s : QAState) (q : String), (LightweightUkrainianQA.find_best_matchS s q).2 = s) ∧
    (∀ (s : QAState) (q : String), (LightweightUkrainianQA.get_answerS s q).2 = s) ∧
    (∀ s : QAState, (LightweightUkrainianQA.get_topicsS s).2 = s) ∧
    (∀ s : QAState, (LightweightUkrainianQA.health_checkS s).2 = s) ∧
    (LightweightUkrainianQA.knowledge_base.map Entry.topic).Nodup ∧
    (UkrainianQA.knowledge_base.map Entry.topic).Nodup :=
  ⟨fun _ _ => rfl, fun _ _ => rfl, fun _ => rfl, fun _ => rfl, by decide, by decide⟩

/-- Claim C10: the lightweight variant and the stdlib simple variant are
equivalent at the answer level: their knowledge bases are equal and
`get_answer` returns the identical string for every question. -/
theorem claim_C10_variants_equivalent :
    UkrainianQA.knowledge_base = LightweightUkrainianQA.knowledge_base ∧
    ∀ q : String,
      LightweightUkrainianQA.get_answer LightweightUkrainianQA.knowledge_base q =
        UkrainianQA.get_answer UkrainianQA.knowledge_base q :=
  ⟨rfl, fun _ => rfl⟩

end WebAI
